import Mathlib

/-!
# Verification of the opentrade risk/order core

Shallow embedding of the opentrade trading control plane, translated from the
Python sources:

* `opentrade/core/order.py`       — idempotency keys and client-order ids
* `opentrade/core/gateway.py`     — order gateway and its risk engine
* `opentrade/services/risk_engine.py` — pre-check risk engine
* `opentrade/core/circuit_breaker.py` — three-tier circuit breaker
* `opentrade/agents/coordinator.py` and
  `opentrade/services/agent_coordinator.py` — decision coordinators
* `opentrade/services/data_service.py` — indicator math

Python floats are modelled as `ℚ`, Python `int` as `Int`/`Nat`, Python strings
as `String` or `List Char` (the latter where character-level reasoning is
needed), dictionaries as association lists, exceptions as `Except`, and side
effects (audit appends, exchange calls, file writes) as explicit event lists.
-/

/-! ## SHA-256 (FIPS 180-4), as used by the Python `hashlib.sha256`

`opentrade/core/order.py` derives idempotency keys with
`hashlib.sha256(core_params.encode()).hexdigest()`.  The inputs in scope are
ASCII, so `encode()` is the list of code points.  The implementation below is
the standard one: padding, 64-word message schedule, 64-round compression. -/

namespace Sha256

def mask32 : Nat := 4294967295

def add32 (a b : Nat) : Nat := (a + b) % 4294967296

def rotr (n x : Nat) : Nat := ((x >>> n) ||| (x <<< (32 - n))) &&& mask32

def shr (n x : Nat) : Nat := x >>> n

def bigS0 (x : Nat) : Nat := (rotr 2 x) ^^^ (rotr 13 x) ^^^ (rotr 22 x)

def bigS1 (x : Nat) : Nat := (rotr 6 x) ^^^ (rotr 11 x) ^^^ (rotr 25 x)

def smallS0 (x : Nat) : Nat := (rotr 7 x) ^^^ (rotr 18 x) ^^^ (shr 3 x)

def smallS1 (x : Nat) : Nat := (rotr 17 x) ^^^ (rotr 19 x) ^^^ (shr 10 x)

def chF (x y z : Nat) : Nat := (x &&& y) ^^^ ((x ^^^ mask32) &&& z)

def majF (x y z : Nat) : Nat := (x &&& y) ^^^ (x &&& z) ^^^ (y &&& z)

def kConsts : List Nat :=
  [1116352408, 1899447441, 3049323471, 3921009573,
   961987163, 1508970993, 2453635748, 2870763221,
   3624381080, 310598401, 607225278, 1426881987,
   1925078388, 2162078206, 2614888103, 3248222580,
   3835390401, 4022224774, 264347078, 604807628,
   770255983, 1249150122, 1555081692, 1996064986,
   2554220882, 2821834349, 2952996808, 3210313671,
   3336571891, 3584528711, 113926993, 338241895,
   666307205, 773529912, 1294757372, 1396182291,
   1695183700, 1986661051, 2177026350, 2456956037,
   2730485921, 2820302411, 3259730800, 3345764771,
   3516065817, 3600352804, 4094571909, 275423344,
   430227734, 506948616, 659060556, 883997877,
   958139571, 1322822218, 1537002063, 1747873779,
   1955562222, 2024104815, 2227730452, 2361852424,
   2428436474, 2756734187, 3204031479, 3329325298]

def hInit : List Nat :=
  [1779033703, 3144134277, 1013904242, 2773480762,
   1359893119, 2600822924, 528734635, 1541459225]

/-- Pad a byte message: append 0x80, zeros to 56 mod 64, then the 64-bit
big-endian bit length. -/
def pad (msg : List Nat) : List Nat :=
  let len := msg.length
  let zeroCount := (55 + 64 - (len % 64)) % 64
  let bitLen := len * 8
  let lenBytes := (List.range 8).map (fun i => (bitLen >>> ((7 - i) * 8)) % 256)
  msg ++ [0x80] ++ List.replicate zeroCount 0 ++ lenBytes

/-- Big-endian 32-bit words from a list of bytes (length a multiple of 4). -/
def toWords : List Nat → List Nat
  | b0 :: b1 :: b2 :: b3 :: rest =>
      (b0 * 16777216 + b1 * 65536 + b2 * 256 + b3) :: toWords rest
  | _ => []

/-- Extend the 16 block words to 64; `ws` holds the words most-recent-first. -/
def extendWords : Nat → List Nat → List Nat
  | 0, ws => ws
  | fuel + 1, ws =>
      let w2 := ws.getD 1 0
      let w7 := ws.getD 6 0
      let w15 := ws.getD 14 0
      let w16 := ws.getD 15 0
      let w := (smallS1 w2 + w7 + smallS0 w15 + w16) % 4294967296
      extendWords fuel (w :: ws)

/-- One round of the compression function on state `(a,b,c,d,e,f,g,h)`. -/
def round (st : List Nat) (kw : Nat × Nat) : List Nat :=
  match st with
  | [a, b, c, d, e, f, g, h] =>
      let t1 := (h + bigS1 e + chF e f g + kw.1 + kw.2) % 4294967296
      let t2 := (bigS0 a + majF a b c) % 4294967296
      [(t1 + t2) % 4294967296, a, b, c, (d + t1) % 4294967296, e, f, g]
  | st => st

/-- Compress one 64-byte block into the running hash state. -/
def compress (hs : List Nat) (block : List Nat) : List Nat :=
  let ws := (extendWords 48 (toWords block).reverse).reverse
  let st := (ws.zip kConsts).foldl round hs
  (hs.zip st).map (fun p => add32 p.1 p.2)

/-- Process `fuel` 64-byte blocks of the padded message. -/
def processBlocks : Nat → List Nat → List Nat → List Nat
  | 0, hs, _ => hs
  | fuel + 1, hs, bytes => processBlocks fuel (compress hs (bytes.take 64)) (bytes.drop 64)

/-- SHA-256 digest (32 bytes) of a byte message. -/
def digest (msg : List Nat) : List Nat :=
  let padded := pad msg
  let hs := processBlocks (padded.length / 64) hInit padded
  hs.flatMap (fun w => [(w >>> 24) % 256, (w >>> 16) % 256, (w >>> 8) % 256, w % 256])

def hexChar (n : Nat) : Char := Nat.digitChar n

/-- Lowercase hex digest, as the Python `.hexdigest()` (64 chars). -/
def hexDigest (msg : List Nat) : List Char :=
  (digest msg).flatMap (fun b => [hexChar (b / 16), hexChar (b % 16)])

/-- ASCII `encode()` of a string given as characters. -/
def encodeAscii (s : List Char) : List Nat := s.map Char.toNat

end Sha256

/-! ## Python builtins used below, kept kernel-computable. -/

/-- Python `abs` on a rational. -/
def pyAbs (x : ℚ) : ℚ := if x < 0 then -x else x

/-- Python `min` of two rationals. -/
def pyMin (a b : ℚ) : ℚ := if a ≤ b then a else b

/-- Python `max` of two rationals. -/
def pyMax (a b : ℚ) : ℚ := if a < b then b else a

/-! ## `opentrade/core/order.py` — `OrderIdempotencyManager` / `OrderDeduplicator`

Python strings are modelled as `List Char` here so that `split`/`replace`
behaviour is provable.  `uuid.uuid4().hex[:8]` is modelled as the 8-digit
lowercase hex rendering of an arbitrary 32-bit value. -/

namespace OrderId

/-- `OrderIdempotencyConfig`. -/
structure OrderIdempotencyConfig where
  idLength : Nat := 32
  cacheTtlHours : Nat := 24
  dedupWindowMs : Nat := 5000

/-- Python `str.replace(c, "")`: drop every occurrence of `c`. -/
def pyRemove (c : Char) (s : List Char) : List Char := s.filter (fun x => x ≠ c)

/-- Python `str.upper()` on the ASCII range. -/
def pyUpper (s : List Char) : List Char := s.map Char.toUpper

/-- Digits of `n` in `base`, most significant first, prepended to `acc`;
`fuel` bounds the recursion (any `fuel > n` is enough). -/
def pyDigits (base : Nat) : Nat → Nat → List Char → List Char
  | 0, _, acc => acc
  | fuel + 1, n, acc =>
      if n < base then Nat.digitChar n :: acc
      else pyDigits base fuel (n / base) (Nat.digitChar (n % base) :: acc)

/-- Python `str(n)` for a natural number. -/
def strOfNat (n : Nat) : List Char := pyDigits 10 (n + 1) n []

/-- Python `str(i)` for an arbitrary int (a leading minus sign when negative). -/
def strOfInt (i : Int) : List Char :=
  if i < 0 then '-' :: strOfNat i.natAbs else strOfNat i.toNat

/-- `uuid.uuid4().hex[:8]`: 8 lowercase hex chars of a random 32-bit value. -/
def uuidHex8 (u : Nat) : List Char :=
  let h := pyDigits 16 (u % 4294967296 + 1) (u % 4294967296) []
  List.replicate (8 - h.length) '0' ++ h

/-- Python `timestamp or int(datetime.now().timestamp() * 1000)`: `None` and
`0` are falsy, so both fall back to the current clock. -/
def resolveTs (timestamp : Option Int) (nowMs : Nat) : Int :=
  match timestamp with
  | some t => if t ≠ 0 then t else (nowMs : Int)
  | none => (nowMs : Int)

/-- `symbol.replace("/", "").replace("-", "").upper()`. -/
def cleanSymbol (symbol : List Char) : List Char :=
  pyUpper (pyRemove '-' (pyRemove '/' symbol))

/-- `OrderIdempotencyManager.generate_client_order_id`
(`price` and `size` are accepted and ignored by the source). -/
def generate_client_order_id (action symbol : List Char)
    (timestamp : Option Int) (nowMs : Nat) (u : Nat) : List Char :=
  let ts := resolveTs timestamp nowMs
  action ++ '_' :: (cleanSymbol symbol ++ '_' :: (strOfInt ts ++ '_' :: uuidHex8 u))

/-- `OrderIdempotencyManager.generate_idempotency_key`: the f-string
`f"{action}:{symbol}:{price}:{size}:{ts}"` hashed with SHA-256, the hex digest
truncated to `id_length` (32) chars and prefixed with `order_`.  `priceRepr`
and `sizeRepr` are the Python `str()` renderings of the float arguments
(e.g. `2000.0`, `1.0`). -/
def generate_idempotency_key (cfg : OrderIdempotencyConfig)
    (action symbol priceRepr sizeRepr : List Char)
    (timestamp : Option Int) (nowMs : Nat) : List Char :=
  let ts := resolveTs timestamp nowMs
  let coreParams :=
    action ++ ':' :: symbol ++ ':' :: priceRepr ++ ':' :: sizeRepr ++ ':' :: strOfInt ts
  "order_".toList ++ (Sha256.hexDigest (Sha256.encodeAscii coreParams)).take cfg.idLength

/-- The idempotency cache: key, indexed by the millisecond instant it was
stored (`datetime` values in the source, kept at ms precision). -/
abbrev Cache := List (List Char × Nat)

/-- `OrderIdempotencyManager.is_duplicate`: evict entries older than
`cache_ttl_hours`, then test membership.  Returns the verdict and the cache
after eviction. -/
def is_duplicate (cfg : OrderIdempotencyConfig) (cache : Cache)
    (idempotencyKey : List Char) (nowMs : Nat) : Bool × Cache :=
  let kept := cache.filter (fun e => ¬ (nowMs - e.2 > cfg.cacheTtlHours * 3600 * 1000))
  (kept.any (fun e => e.1 = idempotencyKey), kept)

/-- `OrderIdempotencyManager.mark_order_processed`: store the key at `now`. -/
def mark_order_processed (cache : Cache) (idempotencyKey : List Char)
    (nowMs : Nat) : Cache :=
  (idempotencyKey, nowMs) :: cache.filter (fun e => e.1 ≠ idempotencyKey)

/-- `OrderIdempotencyManager.check_and_process`: derive the key from the
current clock, reject when duplicate, otherwise hand out a client-order-id.
Returns `(allowed, clientOrderId, cache after eviction)`. -/
def check_and_process (cfg : OrderIdempotencyConfig) (cache : Cache)
    (action symbol priceRepr sizeRepr : List Char)
    (nowMs : Nat) (u : Nat) : Bool × List Char × Cache :=
  let key := generate_idempotency_key cfg action symbol priceRepr sizeRepr none nowMs
  let dup := is_duplicate cfg cache key nowMs
  if dup.1 then (false, [], dup.2)
  else (true, generate_client_order_id action symbol none nowMs u, dup.2)

/-- Python `str.split(sep)` (single-char separator, no collapsing). -/
def pySplit (sep : Char) : List Char → List (List Char)
  | [] => [[]]
  | c :: rest =>
      if c = sep then [] :: pySplit sep rest
      else
        match pySplit sep rest with
        | g :: gs => (c :: g) :: gs
        | [] => [[c]]

/-- Python `str.isdigit()` on the ASCII range: non-empty and all digits. -/
def pyIsDigit (s : List Char) : Bool := !s.isEmpty && s.all Char.isDigit

/-- `OrderIdempotencyManager.validate_client_order_id`. -/
def validate_client_order_id (clientOrderId : List Char) : Bool :=
  let parts := pySplit '_' clientOrderId
  if parts.length ≠ 4 then false
  else if !(["BUY".toList, "SELL".toList, "CLOSE".toList, "FLAT".toList].contains
      (parts.getD 0 [])) then false
  else if !pyIsDigit (parts.getD 2 []) then false
  else true

end OrderId

/-! ## `opentrade/core/gateway.py` — `RiskEngine.validate` and `OrderGateway.submit`

Floats are `ℚ`.  Warning strings are kept as short tags (the source interpolates
values into Chinese text; only presence and order matter to the claims).
`datetime.now().hour` in `_calculate_risk_score` is passed in as `hour`. -/

namespace Gateway

inductive OrderSide where
  | buy
  | sell
deriving DecidableEq, Repr

inductive RejectReason where
  | risk_check_failed
  | insufficient_margin
  | position_limit_exceeded
  | leverage_exceeded
  | price_deviation
  | market_suspended
  | api_error
  | timeoutReason
deriving DecidableEq, Repr

/-- The fields of `OrderRequest` the risk engine reads. -/
structure OrderRequest where
  symbol : String
  side : OrderSide
  size : ℚ
  price : Option ℚ := none
  leverage : ℚ := 1
  stop_loss : Option ℚ := none
  take_profit : Option ℚ := none
deriving Repr

/-- Per-symbol entry of `AccountState.positions` (`entry_price` is the only
key `validate` reads). -/
structure PositionEntry where
  entry_price : ℚ
deriving Repr

structure AccountState where
  total_equity : ℚ := 0
  available_balance : ℚ := 0
  positions : List (String × PositionEntry) := []
  open_orders : Nat := 0
  daily_pnl : ℚ := 0
  daily_loss_pct : ℚ := 0
deriving Repr

/-- The `config.risk` fields read in `RiskEngine.__init__`, with the defaults
of `opentrade/core/config.py`. -/
structure RiskConfig where
  max_leverage : ℚ := 3
  max_position_pct : ℚ := 1/10
  max_daily_loss_pct : ℚ := 1/20
  stop_loss_pct : ℚ := 1/20
  take_profit_pct : ℚ := 1/10
  max_open_positions : Nat := 3
deriving Repr

/-- `strategy_state` dict: `.get("frozen")`, `.get("current_drawdown", 0)`,
`.get("max_drawdown", 0.2)`. -/
structure StrategyState where
  frozen : Bool := false
  current_drawdown : ℚ := 0
  max_drawdown : ℚ := 1/5
deriving Repr

/-- `RiskCheckResult`; the `adjustments` dict is split into its two keys
(`size`, with companion flag `size_adjusted`, and `leverage`). -/
structure RiskCheckResult where
  allowed : Bool := false
  reason : Option RejectReason := none
  warnings : List String := []
  adjustSize : Option ℚ := none
  sizeAdjusted : Bool := false
  adjustLeverage : Option ℚ := none
  risk_score : ℚ := 0
deriving Repr

/-- Python `order.price or 0`: `None` and `0.0` are falsy. -/
def priceOr0 (price : Option ℚ) : ℚ := price.getD 0

/-- Python `order.price or 1`. -/
def priceOr1 (price : Option ℚ) : ℚ :=
  match price with
  | some p => if p ≠ 0 then p else 1
  | none => 1

/-- `RiskEngine._calculate_risk_score` (gateway variant). -/
def calculate_risk_score (cfg : RiskConfig) (order : OrderRequest)
    (account : AccountState) (hour : Nat) : ℚ :=
  let score : ℚ := order.leverage / cfg.max_leverage * (3/10)
  let order_value := order.size * priceOr0 order.price
  let position_pct := if account.total_equity ≠ 0 then order_value / account.total_equity else 1
  let score := score + min (position_pct / cfg.max_position_pct) 1 * (3/10)
  let score := score + (if hour < 3 ∨ hour > 23 then (2/10) else 0)
  min score 1

/-- `RiskEngine.validate` (gateway variant), translated check for check.
Checks 1/2/5 and a frozen strategy return early with `allowed = False`;
checks 3/4/6/7-drawdown/8 only accumulate warnings or adjustments. -/
def validate (cfg : RiskConfig) (order : OrderRequest) (account : AccountState)
    (strategy_state : Option StrategyState) (hour : Nat) : RiskCheckResult :=
  let order_value := order.size * priceOr0 order.price
  -- 1. account base check
  if account.available_balance ≤ 0 then
    { allowed := false, reason := some .insufficient_margin }
  -- 2. leverage limit
  else if order.leverage > cfg.max_leverage then
    { allowed := false, reason := some .leverage_exceeded,
      adjustLeverage := some cfg.max_leverage }
  else
    -- 3. single-order position limit: warn and adjust, never reject
    let max_position_value := account.total_equity * cfg.max_position_pct
    let exceeds := order_value > max_position_value
    let w3 : List String := if exceeds then ["order_value_over_single_limit"] else []
    let adjSize : Option ℚ := if exceeds then some (max_position_value / priceOr1 order.price) else none
    -- 4. open-position count: warn only
    let w4 : List String :=
      if account.positions.length ≥ cfg.max_open_positions then ["open_positions_at_limit"] else []
    -- 5. daily loss limit
    if account.daily_loss_pct ≥ cfg.max_daily_loss_pct then
      { allowed := false, reason := some .risk_check_failed, warnings := w3 ++ w4,
        adjustSize := adjSize, sizeAdjusted := exceeds }
    else
      -- 6. missing stop loss on a large order: warn only
      let stopLossFalsy := match order.stop_loss with
        | none => true
        | some s => s = 0
      let w6 : List String :=
        if stopLossFalsy = true ∧ order.size > account.total_equity * (5/100)
        then ["large_order_without_stop_loss"] else []
      -- 7. strategy-level checks
      let frozen := match strategy_state with
        | some st => st.frozen
        | none => false
      if frozen then
        { allowed := false, reason := some .risk_check_failed, warnings := w3 ++ w4 ++ w6,
          adjustSize := adjSize, sizeAdjusted := exceeds }
      else
        let w7 : List String := match strategy_state with
          | some st => if st.current_drawdown > st.max_drawdown then ["strategy_drawdown_near_limit"] else []
          | none => []
        -- 8. price sanity check: warn only
        let w8 : List String := match order.price with
          | some p =>
              if p ≠ 0 then
                match account.positions.lookup order.symbol with
                | some pos =>
                    if pos.entry_price > 0 ∧ |p - pos.entry_price| / pos.entry_price > 1/10
                    then ["limit_price_deviation"] else []
                | none => []
              else []
          | none => []
        { allowed := true, reason := none, warnings := w3 ++ w4 ++ w6 ++ w7 ++ w8,
          adjustSize := adjSize, sizeAdjusted := exceeds,
          risk_score := calculate_risk_score cfg order account hour }

/-! ### `OrderGateway.submit` as an event trace

The observable behaviour that matters to the audit contract: the order of
audit-log appends and exchange calls, per outcome.  `riskResult` is `none`
when the gateway is built without a config (no risk engine); `exchange`
describes the adapter: absent, returning a status, or raising. -/

inductive GwEvent where
  | exchangeCall
  | audit (action : String)
deriving DecidableEq, Repr

inductive ExchangeBehavior where
  | returnsStatus (status : String)
  | raises
deriving DecidableEq, Repr

inductive OrderStatus where
  | pending
  | submitted
  | filled
  | partialFill
  | cancelled
  | rejected
  | failed
deriving DecidableEq, Repr

inductive SubmitOutcome where
  | done (status : OrderStatus)
  | riskRejected
  | executionError
deriving DecidableEq, Repr

/-- `OrderGateway._execute_order` followed by the bookkeeping the gateway does in
`submit` steps 4: on success one audit `submitted`, on exception one audit
`failed` and `OrderExecutionError` is re-raised. -/
def executeOrder (exchange : Option ExchangeBehavior) : List GwEvent × SubmitOutcome :=
  match exchange with
  | some .raises => ([.exchangeCall, .audit "failed"], .executionError)
  | some (.returnsStatus st) =>
      ([.exchangeCall, .audit "submitted"],
       .done (if st = "filled" ∨ st = "closed" then .filled else .submitted))
  | none => ([.audit "submitted"], .done .submitted)

/-- `OrderGateway.submit`: risk check (when a risk engine exists), one audit
`rejected` before raising `RiskRejected`, otherwise execution. -/
def submit (riskResult : Option RiskCheckResult)
    (exchange : Option ExchangeBehavior) : List GwEvent × SubmitOutcome :=
  match riskResult with
  | some r =>
      if r.allowed then executeOrder exchange
      else ([.audit "rejected"], .riskRejected)
  | none => executeOrder exchange

def isAudit : GwEvent → Bool
  | .audit _ => true
  | .exchangeCall => false

def countAudits (tr : List GwEvent) : Nat := (tr.filter isAudit).length

def countCalls (tr : List GwEvent) : Nat := (tr.filter (fun e => !isAudit e)).length

/-- Every audit append precedes every adapter call in the trace. -/
def auditsPrecedeCalls : List GwEvent → Bool
  | [] => true
  | .audit _ :: rest => auditsPrecedeCalls rest
  | .exchangeCall :: rest => rest.all (fun e => !isAudit e)

end Gateway

/-! ## `opentrade/services/risk_engine.py` — `RiskEngine.pre_check` and its checks

`decision` and `account_info` dicts are modelled as structures holding the
keys the engine reads (absent keys as `Option`/defaults, matching each
`.get`).  `_db_limits` is empty in the source (`_load_db_limits` is a stub),
so every limit comes from `RiskLimits`.  Database writes and notifications are
I/O outside the embedding; the audit row append is kept, as the claims are
about it. -/

namespace RiskSvc

/-- `RiskLimits` with its compiled-in defaults. -/
structure RiskLimits where
  max_position_pct : ℚ := 1/10
  max_total_exposure : ℚ := 2/5
  max_single_symbol_exposure : ℚ := 3/20
  max_open_positions : Nat := 3
  max_leverage : ℚ := 3
  max_stop_loss_pct : ℚ := 1/10
  min_stop_loss_pct : ℚ := 1/100
  max_take_profit_pct : ℚ := 3/10
  max_daily_loss_pct : ℚ := 1/20
  max_daily_trades : Nat := 20
  max_total_drawdown : ℚ := 3/20
  circuit_breake_trigger_pct : ℚ := 2/25
deriving Repr

/-- The decision dict keys the checks read.  `size` is `none` when the key is
absent; `decision.get("size")` is also falsy when the value is `0`. -/
structure Decision where
  size : Option ℚ := none
  symbol : String := "unknown"
  leverage : ℚ := 1
  stop_loss_pct : Option ℚ := none
  take_profit_pct : Option ℚ := none
deriving DecidableEq, Repr

/-- The `account_info` dict keys the checks read (defaults as in the
matching `.get` call in the source; `balance` defaults to 1 in `_check_daily_limits`). -/
structure AccountInfo where
  balance : ℚ := 1
  total_exposure : ℚ := 0
  symbol_exposure : List (String × ℚ) := []
  daily_pnl : ℚ := 0
  daily_trades : Nat := 0
  drawdown : ℚ := 0
  strategy_id : Option String := none
deriving Repr

/-- Which circuit breakers in `RiskEngine._circuit_breakers` are active. -/
structure BreakerDict where
  activeStrategyBreakers : List String := []
  accountActive : Bool := false
deriving Repr

/-- `RiskControlError` and its subclasses, with the `rule` tag. -/
inductive RiskControlError where
  | positionLimit (rule : String)
  | stopLossLimit (rule : String)
  | dailyLossLimit (rule : String)
  | circuitBreakerTriggered (level : String)
deriving DecidableEq, Repr

/-- The (tagged) message of each error, standing in for the Chinese f-string. -/
def msgOf : RiskControlError → String
  | .positionLimit rule => "position_limit:" ++ rule
  | .stopLossLimit rule => "stop_loss_limit:" ++ rule
  | .dailyLossLimit rule => "daily_limit:" ++ rule
  | .circuitBreakerTriggered level => "circuit_breaker:" ++ level

/-- One entry of `applied_rules`. -/
structure AppliedRule where
  rule : String
  action : String
  original : ℚ
  reduced_to : ℚ
deriving DecidableEq, Repr

/-- `RiskEngine._check_circuit_breakers`.  The drawdown branch triggers the
account breaker (a write-and-notify side effect) and then raises. -/
def check_circuit_breakers (limits : RiskLimits) (breakers : BreakerDict)
    (account : AccountInfo) : Except RiskControlError Unit :=
  let strategyHit := match account.strategy_id with
    | some sid => breakers.activeStrategyBreakers.contains sid
    | none => false
  if strategyHit then .error (.circuitBreakerTriggered "strategy")
  else if breakers.accountActive then .error (.circuitBreakerTriggered "account")
  else if account.drawdown ≥ limits.circuit_breake_trigger_pct then
    .error (.circuitBreakerTriggered "account")
  else .ok ()

/-- `RiskEngine._check_position`. -/
def check_position (limits : RiskLimits) (decision : Decision)
    (account : AccountInfo) : Except RiskControlError (Decision × Option AppliedRule) :=
  match decision.size with
  | none => .ok (decision, none)
  | some size =>
    if size = 0 then .ok (decision, none)
    else
      let max_pct := limits.max_position_pct
      if size > max_pct then
        .ok ({ decision with size := some max_pct },
             some { rule := "position_limit", action := "reduced",
                    original := size, reduced_to := max_pct })
      else
        let current_exposure := (account.symbol_exposure.lookup decision.symbol).getD 0
        let max_symbol := limits.max_single_symbol_exposure
        if current_exposure + size > max_symbol then
          let available := max_symbol - current_exposure
          if available > 1/100 then
            .ok ({ decision with size := some available },
                 some { rule := "symbol_exposure_limit", action := "reduced",
                        original := size, reduced_to := available })
          else .error (.positionLimit "max_single_symbol_exposure")
        else if account.total_exposure + size > limits.max_total_exposure then
          .error (.positionLimit "max_total_exposure")
        else .ok (decision, none)

/-- `RiskEngine._check_leverage`: clamp only, never raises. -/
def check_leverage (limits : RiskLimits) (decision : Decision) :
    Decision × Option AppliedRule :=
  if decision.leverage > limits.max_leverage then
    ({ decision with leverage := limits.max_leverage },
     some { rule := "leverage_limit", action := "reduced",
            original := decision.leverage, reduced_to := limits.max_leverage })
  else (decision, none)

/-- `RiskEngine._check_sl_tp`.  A stop-loss above the max returns immediately,
skipping the take-profit check (as in the source).  `if sl_pct:` treats `0.0`
as absent. -/
def check_sl_tp (limits : RiskLimits) (decision : Decision) :
    Except RiskControlError (Decision × Option AppliedRule) :=
  let slTruthy := match decision.stop_loss_pct with
    | some s => s ≠ 0
    | none => false
  let tpTruthy := match decision.take_profit_pct with
    | some t => t ≠ 0
    | none => false
  if slTruthy = true ∧ (decision.stop_loss_pct.getD 0) < limits.min_stop_loss_pct then
    .error (.stopLossLimit "min_stop_loss_pct")
  else if slTruthy = true ∧ (decision.stop_loss_pct.getD 0) > limits.max_stop_loss_pct then
    .ok ({ decision with stop_loss_pct := some limits.max_stop_loss_pct },
         some { rule := "stop_loss_limit", action := "reduced",
                original := decision.stop_loss_pct.getD 0,
                reduced_to := limits.max_stop_loss_pct })
  else if tpTruthy = true ∧ (decision.take_profit_pct.getD 0) > limits.max_take_profit_pct then
    .ok ({ decision with take_profit_pct := some limits.max_take_profit_pct },
         some { rule := "take_profit_limit", action := "reduced",
                original := decision.take_profit_pct.getD 0,
                reduced_to := limits.max_take_profit_pct })
  else .ok (decision, none)

/-- `RiskEngine._check_daily_limits`: raises at or above either daily limit,
returns no rule otherwise. -/
def check_daily_limits (limits : RiskLimits) (account : AccountInfo) :
    Except RiskControlError Unit :=
  if account.daily_pnl < 0 ∧
      pyAbs account.daily_pnl / account.balance ≥ limits.max_daily_loss_pct then
    .error (.dailyLossLimit "max_daily_loss_pct")
  else if account.daily_trades ≥ limits.max_daily_trades then
    .error (.dailyLossLimit "max_daily_trades")
  else .ok ()

/-- `RiskEngine._check_drawdown`: triggers the account breaker and raises at
or above `max_total_drawdown`. -/
def check_drawdown (limits : RiskLimits) (account : AccountInfo) :
    Except RiskControlError Unit :=
  if account.drawdown ≥ limits.max_total_drawdown then
    .error (.circuitBreakerTriggered "account")
  else .ok ()

/-- The `try` block of `pre_check`: run the checks in order, accumulating
`applied_rules`; on a `RiskControlError` the rules gathered so far are kept
(they go into the audit row). -/
def runChecks (limits : RiskLimits) (breakers : BreakerDict)
    (decision : Decision) (account : AccountInfo) :
    List AppliedRule × Except RiskControlError Decision :=
  match check_circuit_breakers limits breakers account with
  | .error e => ([], .error e)
  | .ok _ =>
    match check_position limits decision account with
    | .error e => ([], .error e)
    | .ok (d1, r1) =>
      let (d2, r2) := check_leverage limits d1
      match check_sl_tp limits d2 with
      | .error e => ([r1, r2].reduceOption, .error e)
      | .ok (d3, r3) =>
        match check_daily_limits limits account with
        | .error e => ([r1, r2, r3].reduceOption, .error e)
        | .ok _ =>
          match check_drawdown limits account with
          | .error e => ([r1, r2, r3].reduceOption, .error e)
          | .ok _ => ([r1, r2, r3].reduceOption, .ok d3)

/-- One `RiskAuditLog` row as written by `_log_audit`. -/
structure AuditRec where
  passed : Bool
  blocked_reason : Option String
  applied_rules : List AppliedRule
deriving DecidableEq, Repr

/-- What `pre_check` raises: when blocked, `raise block_reason` is reached
with `block_reason` a *string* (`e.message`), which in Python raises
`TypeError: exceptions must derive from BaseException`; either way an
exception carrying the block context propagates after the audit write. -/
inductive PyExc where
  | raisedStrTypeError (blockReason : String)
deriving DecidableEq, Repr

structure PreCheckOut where
  audits : List AuditRec
  result : Except PyExc (Decision × Bool)
deriving Repr

/-- `RiskEngine.pre_check`: run the checks, append exactly one audit row with
`passed = not blocked`, then raise when blocked or return
`(modified_decision, True)`. -/
def pre_check (limits : RiskLimits) (breakers : BreakerDict)
    (decision : Decision) (account : AccountInfo) : PreCheckOut :=
  match runChecks limits breakers decision account with
  | (rules, .ok d) =>
      { audits := [{ passed := true, blocked_reason := none, applied_rules := rules }],
        result := .ok (d, true) }
  | (rules, .error e) =>
      { audits := [{ passed := false, blocked_reason := some (msgOf e), applied_rules := rules }],
        result := .error (.raisedStrTypeError (msgOf e)) }

end RiskSvc

/-! ## `opentrade/core/circuit_breaker.py` — the three-tier `CircuitBreaker`

The module imports `asyncio, logging, dataclasses, datetime, enum, typing,
pathlib, json` — and no `os`, although `_save_state` calls `os.chmod`; name
resolution is modelled through `breakerModuleGlobals`.  The persisted value is
modelled as `PyVal`: `json.dumps(self._states, default=str)` keeps dicts and
strings and renders a non-serialisable `CircuitBreakerState` dataclass through
`str()`, and `_load_state` assigns the parsed JSON back to `self._states`
unchanged.  Datetimes are millisecond `Nat`s. -/

namespace Breaker

inductive CircuitState where
  | normal
  | warning
  | triggered
  | recovering
deriving DecidableEq, Repr

/-- `CircuitBreakerConfig` with its defaults. -/
structure CircuitBreakerConfig where
  strategy_max_daily_loss : ℚ := 1/20
  strategy_max_consecutive_losses : Nat := 5
  account_max_daily_loss : ℚ := 1/10
  account_max_drawdown : ℚ := 1/5
  account_freeze_threshold : ℚ := 2/25
  system_volatility_threshold : ℚ := 1/5
  system_api_failure_threshold : Nat := 5
  system_panic_sell_threshold : ℚ := 3/20
  auto_recover_minutes : Nat := 60
  manual_recover_required : Bool := false
deriving Repr

/-- The `CircuitBreakerState` dataclass (its `stats` dict stays empty in every
construction in the module and is omitted). -/
structure CircuitBreakerState where
  state : CircuitState := .normal
  triggered_at : Option Nat := none
  triggered_by : String := ""
  reason : String := ""
  recovery_attempts : Nat := 0
deriving DecidableEq, Repr

/-- The names bound at module scope in `circuit_breaker.py` (its imports and
top-level definitions).  `os` is absent. -/
def breakerModuleGlobals : List String :=
  ["asyncio", "logging", "dataclass", "field", "datetime", "Enum",
   "Dict", "List", "Optional", "Callable", "Any", "Path", "json", "logger",
   "CircuitState", "CircuitBreakerConfig", "CircuitBreakerState",
   "CircuitBreaker", "get_circuit_breaker"]

structure NameErr where
  missing : String
deriving DecidableEq, Repr

/-- `os.chmod(str(state_file), 0o600)` with no `import os`: resolving `os`
against the module globals raises `NameError`. -/
def chmodCall : Except NameErr Unit :=
  if breakerModuleGlobals.contains "os" then .ok () else .error { missing := "os" }

/-- Python values as they appear in `self._states` and in the persisted JSON. -/
inductive PyVal where
  | str : String → PyVal
  | breakerObj : CircuitBreakerState → PyVal
  | dict : List (String × PyVal) → PyVal

/-- Python `str()` of `CircuitState` enum members, as embedded in the
dataclass repr (`<CircuitState.NORMAL: \x27normal\x27>`). -/
def reprCircuitState : CircuitState → String
  | .normal => "<CircuitState.NORMAL: \x27normal\x27>"
  | .warning => "<CircuitState.WARNING: \x27warning\x27>"
  | .triggered => "<CircuitState.TRIGGERED: \x27triggered\x27>"
  | .recovering => "<CircuitState.RECOVERING: \x27recovering\x27>"

/-- Python `str()` of the `CircuitBreakerState` dataclass (its auto-generated
repr). -/
def reprBreakerState (r : CircuitBreakerState) : String :=
  "CircuitBreakerState(state=" ++ reprCircuitState r.state ++
    ", triggered_at=" ++ (match r.triggered_at with
      | none => "None"
      | some t => toString t) ++
    ", triggered_by=\x27" ++ r.triggered_by ++ "\x27, reason=\x27" ++ r.reason ++
    "\x27, stats=\x7b\x7d, recovery_attempts=" ++ toString r.recovery_attempts ++ ")"

mutual

/-- `json.dumps(·, default=str)` followed by `json.loads`: dicts and strings
survive; a `CircuitBreakerState` dataclass is not JSON-serialisable, so
`default=str` renders it as its repr string. -/
def dumpsLoadsDefaultStr : PyVal → PyVal
  | .dict kvs => .dict (dumpsLoadsList kvs)
  | .str s => .str s
  | .breakerObj r => .str (reprBreakerState r)

def dumpsLoadsList : List (String × PyVal) → List (String × PyVal)
  | [] => []
  | kv :: rest => (kv.1, dumpsLoadsDefaultStr kv.2) :: dumpsLoadsList rest

end

/-- `CircuitBreaker.__init__`: `self._states` before any trigger. -/
def initialStates : PyVal :=
  .dict [("strategy", .dict []), ("account", .breakerObj {}), ("system", .breakerObj {})]

/-- `CircuitBreaker._save_state`: serialise and write, then `os.chmod`.
Returns the written file content and the outcome of the call. -/
def save_state (states : PyVal) : PyVal × Except NameErr Unit :=
  (dumpsLoadsDefaultStr states, chmodCall)

/-- `_load_state` in a fresh process after `_save_state states`:
`self._states := json.loads(file content)`. -/
def statesAfterRestart (states : PyVal) : PyVal :=
  (save_state states).1

/-- `CircuitBreaker.check_account`.  Returns the updated account-level state,
the number of `_save_state` invocations, and `(allowed)` or the propagated
`NameError` from a save.  The WARNING branch mutates the state without
saving. -/
def check_account (cfg : CircuitBreakerConfig) (state : CircuitBreakerState)
    (daily_pnl total_value current_drawdown : ℚ) (now : Nat) :
    CircuitBreakerState × Nat × Except NameErr Bool :=
  let state1 :=
    if daily_pnl < -(total_value * cfg.account_freeze_threshold * (1/2)) ∧
        state.state ≠ .warning
    then { state with state := .warning } else state
  if daily_pnl < -(total_value * cfg.account_max_daily_loss) then
    let st := { state1 with
      state := .triggered
      triggered_at := some now
      triggered_by := "account" }
    (st, 1, match chmodCall with
      | .error e => .error e
      | .ok _ => .ok false)
  else if current_drawdown > cfg.account_max_drawdown then
    let st := { state1 with
      state := .triggered
      triggered_at := some now
      triggered_by := "account" }
    (st, 1, match chmodCall with
      | .error e => .error e
      | .ok _ => .ok false)
  else (state1, 0, .ok true)

/-- `CircuitBreaker.check_system`.  `saveRes` is the outcome of the
`self._save_state()` call sites (in the source as written it is `chmodCall`,
which raises; passing `.ok ()` models the module with the missing `import os`
repaired).  Returns the updated system-level state and either the propagated
save error or `(allowed, positions_to_close)`. -/
def check_system (saveRes : Except NameErr Unit) (cfg : CircuitBreakerConfig)
    (state : CircuitBreakerState) (market_volatility : ℚ)
    (api_failure_count : Nat) (panic_sell_rate : ℚ)
    (all_positions : List α) (now : Nat) :
    CircuitBreakerState × Except NameErr (Bool × Option (List α)) :=
  if market_volatility > cfg.system_volatility_threshold then
    let st := { state with
      state := .triggered
      triggered_at := some now
      triggered_by := "system" }
    (st, match saveRes with
      | .error e => .error e
      | .ok _ => .ok (false, some all_positions))
  else if api_failure_count ≥ cfg.system_api_failure_threshold then
    let st := { state with
      state := .triggered
      triggered_at := some now
      triggered_by := "system" }
    (st, match saveRes with
      | .error e => .error e
      | .ok _ => .ok (false, none))
  else if panic_sell_rate > cfg.system_panic_sell_threshold then
    let st := { state with
      state := .triggered
      triggered_at := some now
      triggered_by := "system" }
    (st, match saveRes with
      | .error e => .error e
      | .ok _ => .ok (false, some (all_positions.take (all_positions.length / 2))))
  else (state, .ok (true, none))

end Breaker

/-! ## `opentrade/agents/coordinator.py` — `CoordinatorAgent._synthesize_decision`

Only the signal aggregation and action selection are embedded (sizing,
leverage and SL/TP do not bear on the claims).  Each agent result dict is
read through `.get("signal_score", 0)`; the six scores are passed directly. -/

namespace Coord

inductive SignalType where
  | buy
  | sell
  | short
  | cover
  | hold
  | close
deriving DecidableEq, Repr

/-- The weighted total of `_synthesize_decision`: weights
market 0.25, strategy 0.20, risk 0.25, onchain 0.10, sentiment 0.10,
macro 0.10. -/
def total_signal (market strategy risk onchain sentiment mac : ℚ) : ℚ :=
  market * (25/100) + strategy * (20/100) + risk * (25/100) +
    onchain * (10/100) + sentiment * (10/100) + mac * (10/100)

/-- Action selection of `_synthesize_decision`: `price` is
`market_state.price`, `close1h` is `market_state.ohlcv_1h.get("close", 0)`.
There is no risk-veto branch in this function. -/
def synthesize_action (market strategy risk onchain sentiment mac : ℚ)
    (price close1h : ℚ) : SignalType :=
  let t := total_signal market strategy risk onchain sentiment mac
  if pyAbs t < 1/10 then .hold
  else if t > 0 then (if price < close1h then .buy else .short)
  else (if price < close1h then .sell else .cover)

end Coord

/-! ## `opentrade/services/agent_coordinator.py` — `MultiAgentCoordinator`

An absent agent result (`results.get(name, {})` giving a falsy empty dict) is
`none`.  The result dicts carry `signal`, `confidence`, `blocked`, `reason`
and — for the risk agent — a `signal_score` that `run`/`_generate_decision`
never read. -/

namespace Svc

structure AgentResultDict where
  signal : Option String := none
  confidence : ℚ := 0
  blocked : Bool := false
  reason : String := ""
  signal_score : ℚ := 0
deriving DecidableEq, Repr

structure GenDecision where
  action : String
  confidence : ℚ
deriving DecidableEq, Repr

/-- The `signals` list of `_generate_decision`: `(name, signal, confidence)`
for each present agent, in source order. -/
def signalsList (market strategy onchain sentiment mac : Option AgentResultDict) :
    List (String × Option String × ℚ) :=
  (match market with
    | some r => [("market", r.signal, r.confidence)]
    | none => []) ++
  (match strategy with
    | some r => [("strategy", r.signal, r.confidence)]
    | none => []) ++
  (match onchain with
    | some r => [("onchain", r.signal, r.confidence)]
    | none => []) ++
  (match sentiment with
    | some r => [("sentiment", r.signal, r.confidence)]
    | none => []) ++
  (match mac with
    | some r => [("macro", r.signal, r.confidence)]
    | none => [])

/-- `MultiAgentCoordinator._generate_decision`: simple vote over BUY/LONG vs
SELL/SHORT signals. -/
def generate_decision (market strategy onchain sentiment mac : Option AgentResultDict) :
    GenDecision :=
  let signals := signalsList market strategy onchain sentiment mac
  if signals.isEmpty then { action := "HOLD", confidence := 0 }
  else
    let buy_count := (signals.filter
      (fun s => s.2.1 = some "BUY" ∨ s.2.1 = some "LONG")).length
    let sell_count := (signals.filter
      (fun s => s.2.1 = some "SELL" ∨ s.2.1 = some "SHORT")).length
    let total_confidence := (signals.map (fun s => s.2.2)).sum
    let avg_confidence := total_confidence / signals.length
    if sell_count < buy_count then
      { action := "BUY", confidence := (buy_count : ℚ) / signals.length }
    else if buy_count < sell_count then
      { action := "SELL", confidence := (sell_count : ℚ) / signals.length }
    else
      { action := "HOLD", confidence := avg_confidence }

/-- `MultiAgentCoordinator.run` after the workflow: generate the decision,
then the risk veto replaces it with HOLD only when the risk agent result has
a truthy `blocked` entry.  The risk `signal_score` is never consulted. -/
def run (market strategy onchain sentiment mac risk : Option AgentResultDict) :
    GenDecision :=
  let decision := generate_decision market strategy onchain sentiment mac
  let blocked := match risk with
    | some r => r.blocked
    | none => false
  if blocked then { action := "HOLD", confidence := 0 } else decision

end Svc

/-! ## `opentrade/services/data_service.py` — indicator math

`_ema`, `_rsi`, `_atr` over `ℚ`, plus, for the refinement comparison,
`emaSpec`, `rsiWilder` and `atrWilder`, modelled from the spec wording
"EMA uses the seed `price[0]` then multiplier `2/(N+1)`; RSI uses Wilder
smoothing over 14; ATR uses Wilder smoothing of true range over 14". -/

namespace DataSvc

/-- `DataService._ema`.  (For `data = []` with `period = 0` the Python raises
`IndexError` at `data[0]`; that corner is outside every use, all of which
have `period ≥ 1`.) -/
def ema (data : List ℚ) (period : Nat) : ℚ :=
  if data.length < period then (data.getLast?.getD 0)
  else
    let multiplier : ℚ := 2 / ((period : ℚ) + 1)
    match data with
    | [] => 0
    | x :: rest => rest.foldl (fun e price => price * multiplier + e * (1 - multiplier)) x

/-- Modelled from the spec: "EMA uses the seed `price[0]` then multiplier
`2/(N+1)`" — the same seeded recurrence, defined for non-empty input. -/
def emaSpec (data : List ℚ) (period : Nat) : ℚ :=
  let multiplier : ℚ := 2 / ((period : ℚ) + 1)
  match data with
  | [] => 0
  | x :: rest => rest.foldl (fun e price => price * multiplier + e * (1 - multiplier)) x

/-- Successive differences `data[i] - data[i-1]`. -/
def diffs : List ℚ → List ℚ
  | a :: b :: rest => (b - a) :: diffs (b :: rest)
  | _ => []

/-- Python `xs[-n:]` for `n ≥ 1`. -/
def lastN (n : Nat) (xs : List ℚ) : List ℚ := xs.drop (xs.length - n)

/-- `DataService._rsi`: averages are plain means of the **last** `period`
gains/losses. -/
def rsi (data : List ℚ) (period : Nat) : ℚ :=
  if data.length < period + 1 then 50
  else
    let changes := diffs data
    let gains := changes.map (fun c => if c > 0 then c else 0)
    let losses := changes.map (fun c => if c > 0 then 0 else pyAbs c)
    let avg_gain := (lastN period gains).sum / (period : ℚ)
    let avg_loss := (lastN period losses).sum / (period : ℚ)
    if avg_loss = 0 then 100
    else 100 - 100 / (1 + avg_gain / avg_loss)

/-- Wilder recursive smoothing: `avg ← (avg·(period−1) + x) / period`. -/
def wilderSmooth (period : Nat) (init : ℚ) (rest : List ℚ) : ℚ :=
  rest.foldl (fun avg x => (avg * ((period : ℚ) - 1) + x) / (period : ℚ)) init

/-- Modelled from the spec: "RSI uses Wilder smoothing over 14" — seed the
average gain/loss with the mean of the first `period` changes, then apply
Wilder smoothing over the remaining changes. -/
def rsiWilder (data : List ℚ) (period : Nat) : ℚ :=
  if data.length < period + 1 then 50
  else
    let changes := diffs data
    let gains := changes.map (fun c => if c > 0 then c else 0)
    let losses := changes.map (fun c => if c > 0 then 0 else pyAbs c)
    let avg_gain := wilderSmooth period ((gains.take period).sum / (period : ℚ)) (gains.drop period)
    let avg_loss := wilderSmooth period ((losses.take period).sum / (period : ℚ)) (losses.drop period)
    if avg_loss = 0 then 100
    else 100 - 100 / (1 + avg_gain / avg_loss)

/-- The OHLCV-bar keys `_atr` reads. -/
structure Bar where
  high : ℚ
  low : ℚ
  close : ℚ
deriving DecidableEq, Repr

/-- True ranges `max(high−low, |high−prev_close|, |low−prev_close|)` over
consecutive bars. -/
def trueRanges : List Bar → List ℚ
  | a :: b :: rest =>
      pyMax (b.high - b.low) (pyMax (pyAbs (b.high - a.close)) (pyAbs (b.low - a.close))) ::
        trueRanges (b :: rest)
  | _ => []

/-- Python `xs[-n:]` on a list of bars is not needed: `_atr` takes the last
`period` of the `trs` list, which `lastN` covers. `DataService._atr`: plain
mean of the last `period` true ranges. -/
def atr (ohlcv : List Bar) (period : Nat) : ℚ :=
  if ohlcv.length < period + 1 then 0
  else
    let trs := trueRanges ohlcv
    if trs.isEmpty then 0 else (lastN period trs).sum / (period : ℚ)

/-- Modelled from the spec: "ATR uses Wilder smoothing of true range over
14" — seed with the mean of the first `period` true ranges, then Wilder
smoothing over the rest. -/
def atrWilder (ohlcv : List Bar) (period : Nat) : ℚ :=
  if ohlcv.length < period + 1 then 0
  else
    let trs := trueRanges ohlcv
    wilderSmooth period ((trs.take period).sum / (period : ℚ)) (trs.drop period)

end DataSvc

/-! ## Helper lemmas and claim theorems -/

namespace OrderId

theorem digitChar_ne_underscore (k : Nat) : Nat.digitChar k ≠ '_' := by
  rcases Nat.lt_or_ge k 16 with h | h
  · interval_cases k <;> decide
  · unfold Nat.digitChar
    rw [if_neg (show ¬ k = 0 by omega), if_neg (show ¬ k = 1 by omega),
        if_neg (show ¬ k = 2 by omega), if_neg (show ¬ k = 3 by omega),
        if_neg (show ¬ k = 4 by omega), if_neg (show ¬ k = 5 by omega),
        if_neg (show ¬ k = 6 by omega), if_neg (show ¬ k = 7 by omega),
        if_neg (show ¬ k = 8 by omega), if_neg (show ¬ k = 9 by omega),
        if_neg (show ¬ k = 10 by omega), if_neg (show ¬ k = 11 by omega),
        if_neg (show ¬ k = 12 by omega), if_neg (show ¬ k = 13 by omega),
        if_neg (show ¬ k = 14 by omega), if_neg (show ¬ k = 15 by omega)]
    decide

theorem digitChar_isDigit (k : Nat) (h : k < 10) : (Nat.digitChar k).isDigit = true := by
  interval_cases k <;> decide

theorem pyDigits_all (b fuel : Nat) (P : Char → Prop)
    (hP : ∀ k, P (Nat.digitChar k)) :
    ∀ n acc, (∀ c ∈ acc, P c) → ∀ c ∈ pyDigits b fuel n acc, P c := by
  induction fuel with
  | zero => intro n acc hacc c hc; exact hacc c hc
  | succ f ih =>
      intro n acc hacc c hc
      simp only [pyDigits] at hc
      split at hc
      · rcases List.mem_cons.mp hc with rfl | hmem
        · exact hP n
        · exact hacc c hmem
      · refine ih (n / b) _ ?_ c hc
        intro c' hc'
        rcases List.mem_cons.mp hc' with rfl | hmem
        · exact hP (n % b)
        · exact hacc c' hmem

theorem pyDigits_all_isDigit (fuel : Nat) :
    ∀ n acc, (∀ c ∈ acc, c.isDigit = true) → ∀ c ∈ pyDigits 10 fuel n acc, c.isDigit = true := by
  induction fuel with
  | zero => intro n acc hacc c hc; exact hacc c hc
  | succ f ih =>
      intro n acc hacc c hc
      simp only [pyDigits] at hc
      split at hc
      · next hlt =>
        rcases List.mem_cons.mp hc with rfl | hmem
        · exact digitChar_isDigit n hlt
        · exact hacc c hmem
      · refine ih (n / 10) _ ?_ c hc
        intro c' hc'
        rcases List.mem_cons.mp hc' with rfl | hmem
        · exact digitChar_isDigit (n % 10) (Nat.mod_lt _ (by omega))
        · exact hacc c' hmem

theorem pyDigits_ne_nil_of_acc (b fuel : Nat) :
    ∀ n acc, acc ≠ [] → pyDigits b fuel n acc ≠ [] := by
  induction fuel with
  | zero => intro n acc h; exact h
  | succ f ih =>
      intro n acc h
      simp only [pyDigits]
      split
      · exact List.cons_ne_nil _ _
      · exact ih (n / b) _ (List.cons_ne_nil _ _)

theorem strOfNat_ne_nil (n : Nat) : strOfNat n ≠ [] := by
  unfold strOfNat pyDigits
  split
  · exact List.cons_ne_nil _ _
  · exact pyDigits_ne_nil_of_acc 10 n (n / 10) _ (List.cons_ne_nil _ _)

theorem strOfNat_isDigit (n : Nat) : ∀ c ∈ strOfNat n, c.isDigit = true := by
  unfold strOfNat
  exact pyDigits_all_isDigit (n + 1) n [] (by intro c hc; cases hc)

theorem pyIsDigit_strOfNat (n : Nat) : pyIsDigit (strOfNat n) = true := by
  unfold pyIsDigit
  rw [Bool.and_eq_true]
  constructor
  · cases h : strOfNat n with
    | nil => exact absurd h (strOfNat_ne_nil n)
    | cons a l => simp
  · rw [List.all_eq_true]
    intro c hc
    exact strOfNat_isDigit n c hc

theorem toUpper_ne_underscore (c : Char) (h : c ≠ '_') : c.toUpper ≠ '_' := by
  simp only [Char.toUpper]
  split
  · next hrange =>
    intro hEq
    have h1 : 65 ≤ c.toNat - 32 := by omega
    have h2 : c.toNat - 32 ≤ 90 := by omega
    set m := c.toNat - 32 with hm
    clear_value m
    interval_cases m <;> revert hEq <;> decide
  · exact h

theorem pySplit_no_sep (sep : Char) :
    ∀ xs : List Char, sep ∉ xs → pySplit sep xs = [xs] := by
  intro xs
  induction xs with
  | nil => intro _; rfl
  | cons c rest ih =>
      intro h
      have hc : c ≠ sep := fun hEq => h (hEq ▸ List.mem_cons_self c rest)
      have hrest : sep ∉ rest := fun hm => h (List.mem_cons_of_mem c hm)
      simp only [pySplit, if_neg hc, ih hrest]

theorem pySplit_append (sep : Char) :
    ∀ xs ys : List Char, sep ∉ xs →
      pySplit sep (xs ++ sep :: ys) = xs :: pySplit sep ys := by
  intro xs
  induction xs with
  | nil =>
      intro ys _
      simp [pySplit]
  | cons c rest ih =>
      intro ys h
      have hc : c ≠ sep := fun hEq => h (hEq ▸ List.mem_cons_self c rest)
      have hrest : sep ∉ rest := fun hm => h (List.mem_cons_of_mem c hm)
      simp only [List.cons_append, pySplit, if_neg hc]
      rw [show rest.append (sep :: ys) = rest ++ sep :: ys from rfl, ih ys hrest]

end OrderId

namespace OrderId

theorem strOfNat_no_underscore (n : Nat) : '_' ∉ strOfNat n := by
  intro hmem
  have := strOfNat_isDigit n '_' hmem
  exact absurd this (by decide)

theorem strOfInt_nonneg (i : Int) (h : 0 ≤ i) : strOfInt i = strOfNat i.toNat := by
  unfold strOfInt
  rw [if_neg (not_lt.mpr h)]

theorem cleanSymbol_no_underscore (symbol : List Char) (hs : '_' ∉ symbol) :
    '_' ∉ cleanSymbol symbol := by
  intro hmem
  unfold cleanSymbol pyUpper pyRemove at hmem
  rcases List.mem_map.mp hmem with ⟨c, hcMem, hcEq⟩
  have hcSym : c ∈ symbol := List.mem_of_mem_filter (List.mem_of_mem_filter hcMem)
  exact toUpper_ne_underscore c (fun h => hs (h ▸ hcSym)) hcEq

theorem uuidHex8_no_underscore (u : Nat) : '_' ∉ uuidHex8 u := by
  intro hmem
  unfold uuidHex8 at hmem
  rcases List.mem_append.mp hmem with hrep | hdig
  · have := List.eq_of_mem_replicate hrep
    exact absurd this (by decide)
  · exact pyDigits_all 16 _ (fun c => c ≠ '_') digitChar_ne_underscore _ []
      (by intro c hc; cases hc) '_' hdig rfl

end OrderId

theorem pySplit_generate (action symbol : List Char) (ts : Option Int)
    (nowMs : Nat) (u : Nat) (haU : '_' ∉ action) (hclean : '_' ∉ OrderId.cleanSymbol symbol)
    (htsD : '_' ∉ OrderId.strOfInt (OrderId.resolveTs ts nowMs)) :
    OrderId.pySplit '_' (OrderId.generate_client_order_id action symbol ts nowMs u) =
      [action, OrderId.cleanSymbol symbol,
        OrderId.strOfInt (OrderId.resolveTs ts nowMs), OrderId.uuidHex8 u] := by
  unfold OrderId.generate_client_order_id
  rw [OrderId.pySplit_append _ _ _ haU, OrderId.pySplit_append _ _ _ hclean,
      OrderId.pySplit_append _ _ _ htsD,
      OrderId.pySplit_no_sep _ _ (OrderId.uuidHex8_no_underscore u)]

/-- C10 (amended): for every action in BUY/SELL/CLOSE/FLAT, every symbol
containing no underscore, any price, size and uuid suffix, and every timestamp
whose resolved value is nonnegative (an omitted or zero timestamp falls back
to the clock), `generate_client_order_id` followed by
`validate_client_order_id` returns true. -/
theorem C10_roundtrip
    (action symbol : List Char) (ts : Option Int) (nowMs : Nat) (u : Nat)
    (ha : action ∈ ["BUY".toList, "SELL".toList, "CLOSE".toList, "FLAT".toList])
    (hs : '_' ∉ symbol) (ht : 0 ≤ OrderId.resolveTs ts nowMs) :
    OrderId.validate_client_order_id
      (OrderId.generate_client_order_id action symbol ts nowMs u) = true := by
  have hclean : '_' ∉ OrderId.cleanSymbol symbol := OrderId.cleanSymbol_no_underscore symbol hs
  have hts : OrderId.strOfInt (OrderId.resolveTs ts nowMs) =
      OrderId.strOfNat (OrderId.resolveTs ts nowMs).toNat := OrderId.strOfInt_nonneg _ ht
  have htsD : '_' ∉ OrderId.strOfInt (OrderId.resolveTs ts nowMs) := by
    rw [hts]; exact OrderId.strOfNat_no_underscore _
  have haU : '_' ∉ action := by fin_cases ha <;> decide
  have hsplit := pySplit_generate action symbol ts nowMs u haU hclean htsD
  unfold OrderId.validate_client_order_id
  simp only [hsplit]
  simp [hts, OrderId.pyIsDigit_strOfNat]
  simpa using ha

/-- C10 witness: the round-trip theorem applied at a concrete BUY order id. -/
theorem C10_witness :
    ("BUY".toList ∈ ["BUY".toList, "SELL".toList, "CLOSE".toList, "FLAT".toList]) ∧
    ('_' ∉ "ETH/USDT".toList) ∧
    (0 ≤ OrderId.resolveTs (some 1708300000000) 0) ∧
    OrderId.validate_client_order_id
      (OrderId.generate_client_order_id "BUY".toList "ETH/USDT".toList
        (some 1708300000000) 0 123456789) = true :=
  ⟨by decide, by decide, by decide,
    C10_roundtrip _ _ _ _ _ (by decide) (by decide) (by decide)⟩

/-- C10 counterexample: with the explicit negative timestamp `-1` (a Python
`int`), the generated id renders the timestamp as `-1`, `isdigit` fails, and
validation returns false — refuting the claim for "any timestamp". -/
theorem C10_counterexample :
    OrderId.validate_client_order_id
      (OrderId.generate_client_order_id "BUY".toList "BTC/USDT".toList
        (some (-1)) 1708300000000 2712847316) = false := by
  decide

/-- C4 (amended): the idempotency key is `order_` followed by the first 32 hex
chars of SHA-256 of `action:symbol:price:size:ts` with `ts` the raw
*millisecond* clock (no minute bucket, `:` separators); within the TTL a key
equal to a cached key is reported duplicate, and only an equal key is. -/
theorem C4_key_semantics :
    (∀ (cfg : OrderId.OrderIdempotencyConfig) (action symbol priceR sizeR : List Char) (nowMs : Nat),
      OrderId.generate_idempotency_key cfg action symbol priceR sizeR none nowMs =
        "order_".toList ++ (Sha256.hexDigest (Sha256.encodeAscii
          (action ++ ':' :: symbol ++ ':' :: priceR ++ ':' :: sizeR ++ ':' :: OrderId.strOfInt nowMs))).take cfg.idLength) ∧
    (∀ (cfg : OrderId.OrderIdempotencyConfig) (k : List Char) (t nowMs : Nat),
      nowMs - t ≤ cfg.cacheTtlHours * 3600 * 1000 →
      (OrderId.is_duplicate cfg [(k, t)] k nowMs).1 = true) ∧
    (∀ (cfg : OrderId.OrderIdempotencyConfig) (k k2 : List Char) (t nowMs : Nat),
      (OrderId.is_duplicate cfg [(k2, t)] k nowMs).1 = true → k2 = k) := by
  refine ⟨?_, ?_, ?_⟩
  · intro cfg action symbol priceR sizeR nowMs
    rfl
  · intro cfg k t nowMs h
    have hkeep : ¬ (nowMs - t > cfg.cacheTtlHours * 3600 * 1000) := by omega
    simp [OrderId.is_duplicate, hkeep]
    omega
  · intro cfg k k2 t nowMs h
    simp only [OrderId.is_duplicate, List.any_eq_true] at h
    rcases h with ⟨e, he, heq⟩
    have hmem := List.mem_of_mem_filter he
    simp only [List.mem_singleton] at hmem
    subst hmem
    simpa using heq

/-- C4 counterexample: the S2 pair of identical requests 1 s apart produce
different keys (the millisecond timestamp is hashed, not a minute bucket), so
the second request is *not* reported DUPLICATE — `check_and_process` admits it
to the adapter. -/
theorem C4_counterexample :
    OrderId.generate_idempotency_key {} "BUY".toList "ETH/USDT".toList
        "2000.0".toList "1.0".toList none 0 ≠
      OrderId.generate_idempotency_key {} "BUY".toList "ETH/USDT".toList
        "2000.0".toList "1.0".toList none 1000 ∧
    (OrderId.check_and_process {}
      [(OrderId.generate_idempotency_key {} "BUY".toList "ETH/USDT".toList
          "2000.0".toList "1.0".toList none 0, 0)]
      "BUY".toList "ETH/USDT".toList "2000.0".toList "1.0".toList 1000 2712847316).1 = true := by
  constructor <;> decide

/-- C4 witness: the key equation and the same-key duplicate verdict at the S2
request (BUY ETH/USDT 1.0 @ 2000), with the second check 1 s inside the TTL. -/
theorem C4_witness :
    OrderId.generate_idempotency_key {} "BUY".toList "ETH/USDT".toList
        "2000.0".toList "1.0".toList none 1000 =
      "order_".toList ++ (Sha256.hexDigest (Sha256.encodeAscii
        ("BUY".toList ++ ':' :: "ETH/USDT".toList ++ ':' :: "2000.0".toList ++
          ':' :: "1.0".toList ++ ':' :: OrderId.strOfInt 1000))).take
        (OrderId.OrderIdempotencyConfig.idLength {}) ∧
    (OrderId.is_duplicate {}
      [(OrderId.generate_idempotency_key {} "BUY".toList "ETH/USDT".toList
          "2000.0".toList "1.0".toList none 1000, 1000)]
      (OrderId.generate_idempotency_key {} "BUY".toList "ETH/USDT".toList
        "2000.0".toList "1.0".toList none 1000) 2000).1 = true :=
  ⟨C4_key_semantics.1 {} _ _ _ _ 1000,
   C4_key_semantics.2.1 {} _ 1000 2000 (by decide)⟩

/-- C1 (amended): every `submit` call appends exactly one audit record on
every outcome; on rejection it is written with no adapter call at all, but on
an admitted or failed outcome the single audit record is appended *after* the
exchange call. -/
theorem C1_audit_per_outcome :
    ∀ (r : Option Gateway.RiskCheckResult) (e : Option Gateway.ExchangeBehavior),
      Gateway.countAudits (Gateway.submit r e).1 = 1 ∧
      (∀ rr, r = some rr → rr.allowed = false →
        (Gateway.submit r e).1 = [.audit "rejected"] ∧
          Gateway.countCalls (Gateway.submit r e).1 = 0) ∧
      (∀ rr b, r = some rr → rr.allowed = true → e = some b →
        Gateway.countCalls (Gateway.submit r e).1 = 1 ∧
          Gateway.auditsPrecedeCalls (Gateway.submit r e).1 = false) := by
  have hex1 : ∀ e, Gateway.countAudits (Gateway.executeOrder e).1 = 1 := by
    rintro (_ | b)
    · rfl
    · rcases b with st | _ <;> rfl
  have hex2 : ∀ b, Gateway.countCalls (Gateway.executeOrder (some b)).1 = 1 := by
    rintro (st | _) <;> rfl
  have hex3 : ∀ b, Gateway.auditsPrecedeCalls (Gateway.executeOrder (some b)).1 = false := by
    rintro (st | _) <;> rfl
  intro r e
  rcases r with _ | rr
  · refine ⟨hex1 e, ?_, ?_⟩
    · intro rr h; cases h
    · intro rr b h; cases h
  · by_cases h : rr.allowed
    · refine ⟨?_, ?_, ?_⟩
      · simp only [Gateway.submit, if_pos h]
        exact hex1 e
      · intro rr' hEq hfalse
        injection hEq with hEq
        subst hEq
        rw [h] at hfalse
        cases hfalse
      · intro rr' b hEq htrue hEq2
        injection hEq with hEq
        subst hEq
        subst hEq2
        simp only [Gateway.submit, if_pos h]
        exact ⟨hex2 b, hex3 b⟩
    · have hb : rr.allowed = false := by
        cases hall : rr.allowed
        · rfl
        · exact absurd hall h
      refine ⟨?_, ?_, ?_⟩
      · simp only [Gateway.submit, if_neg h]
        rfl
      · intro rr' hEq _
        injection hEq with hEq
        subst hEq
        simp only [Gateway.submit, if_neg h]
        exact ⟨trivial, rfl⟩
      · intro rr' b hEq htrue _
        injection hEq with hEq
        subst hEq
        rw [htrue] at hb
        cases hb

/-- C1 witness: the amended theorem applied at a rejected and at an admitted
submit. -/
theorem C1_witness :
    (Gateway.submit (some { allowed := false }) (some (.returnsStatus "filled"))).1 =
      [.audit "rejected"] ∧
    Gateway.countCalls (Gateway.submit (some { allowed := true }) (some .raises)).1 = 1 :=
  ⟨((C1_audit_per_outcome (some { allowed := false }) (some (.returnsStatus "filled"))).2.1
      _ rfl rfl).1,
   ((C1_audit_per_outcome (some { allowed := true }) (some .raises)).2.2
      _ _ rfl rfl rfl).1⟩

/-- C1 counterexample: on the admitted outcome the trace is
`[exchangeCall, audit "submitted"]` — exactly one audit record, but appended
after the exchange call, refuting "the append happens before any call into
the execution adapter". -/
theorem C1_counterexample :
    Gateway.countAudits
        (Gateway.submit (some { allowed := true }) (some (.returnsStatus "filled"))).1 = 1 ∧
    Gateway.auditsPrecedeCalls
        (Gateway.submit (some { allowed := true }) (some (.returnsStatus "filled"))).1 = false := by
  constructor <;> rfl

/-- C9 (confirmed): `RiskEngine.pre_check` appends exactly one audit row whose
`passed` flag mirrors the outcome, and either raises (blocked, after the audit
is written) or returns `(modified_decision, True)` — it never returns a result
whose passed flag is `False`. -/
theorem C9_pre_check_contract :
    ∀ (limits : RiskSvc.RiskLimits) (breakers : RiskSvc.BreakerDict)
      (decision : RiskSvc.Decision) (account : RiskSvc.AccountInfo),
      (RiskSvc.pre_check limits breakers decision account).audits.length = 1 ∧
      ((RiskSvc.pre_check limits breakers decision account).audits.map
          (fun a => a.passed)) =
        [(RiskSvc.pre_check limits breakers decision account).result.toBool] ∧
      ((∃ msg, (RiskSvc.pre_check limits breakers decision account).result = .error msg) ∨
        (∃ d, (RiskSvc.pre_check limits breakers decision account).result = .ok (d, true))) := by
  intro limits breakers decision account
  rcases h : RiskSvc.runChecks limits breakers decision account with ⟨rules, res⟩
  rcases res with e | d'
  · refine ⟨?_, ?_, Or.inl ⟨.raisedStrTypeError (RiskSvc.msgOf e), ?_⟩⟩ <;>
      simp [RiskSvc.pre_check, h, Except.toBool]
  · refine ⟨?_, ?_, Or.inr ⟨d', ?_⟩⟩ <;>
      simp [RiskSvc.pre_check, h, Except.toBool]

/-- C5 (amended): the risk veto that exists in the code is
the check in `MultiAgentCoordinator.run` of the `blocked` flag on the risk result: when
it is set the final action is forced to HOLD regardless of the vote.  Neither
coordinator gates on a signal score threshold of -0.5. -/
theorem C5_risk_veto :
    ∀ (market strategy onchain sentiment mac : Option Svc.AgentResultDict)
      (r : Svc.AgentResultDict), r.blocked = true →
      (Svc.run market strategy onchain sentiment mac (some r)).action = "HOLD" := by
  intro market strategy onchain sentiment mac r h
  simp [Svc.run, h]

/-- C5 witness: the veto theorem applied with a blocked risk result. -/
theorem C5_witness :
    ({ blocked := true : Svc.AgentResultDict }).blocked = true ∧
    (Svc.run none none none none none
      (some { blocked := true : Svc.AgentResultDict })).action = "HOLD" :=
  ⟨rfl, C5_risk_veto none none none none none { blocked := true } rfl⟩

/-- C5 counterexample: a risk signal score of -1 (which is ≤ -0.5) does not
force HOLD in either coordinator: `CoordinatorAgent._synthesize_decision`
returns BUY with all other scores +1, and `MultiAgentCoordinator.run` returns
BUY when the risk result carries `signal_score = -1` without `blocked`. -/
theorem C5_counterexample :
    ((-1 : ℚ) ≤ -(1/2)) ∧
    Coord.synthesize_action 1 1 (-1) 1 1 1 100 200 = .buy ∧
    (Svc.run (some { signal := some "BUY", confidence := 7/10 })
             (some { signal := some "BUY", confidence := 7/10 })
             none none none
             (some { signal_score := -1, blocked := false })).action = "BUY" := by
  refine ⟨by norm_num, ?_, ?_⟩
  · norm_num [Coord.synthesize_action, Coord.total_signal, pyAbs]
  · simp [Svc.run, Svc.generate_decision, Svc.signalsList]

/-- C6 (amended): with the `_save_state` call taken to return (the source as
written raises `NameError` there, `os` being unimported — the second conjunct
shows the propagated error), a volatility trigger emits *all* open positions,
an API-failure trigger emits none, and a panic-sell trigger emits only the
first half (`positions[:len//2]`) of the open positions. -/
theorem C6_close_lists {α : Type} :
    ∀ (cfg : Breaker.CircuitBreakerConfig) (st : Breaker.CircuitBreakerState)
      (vol : ℚ) (api : Nat) (panic : ℚ) (ps : List α) (now : Nat),
      (vol > cfg.system_volatility_threshold →
        (Breaker.check_system (.ok ()) cfg st vol api panic ps now).2 =
            .ok (false, some ps) ∧
          (Breaker.check_system Breaker.chmodCall cfg st vol api panic ps now).2 =
            .error { missing := "os" }) ∧
      (¬ vol > cfg.system_volatility_threshold →
        api ≥ cfg.system_api_failure_threshold →
        (Breaker.check_system (.ok ()) cfg st vol api panic ps now).2 =
          .ok (false, none)) ∧
      (¬ vol > cfg.system_volatility_threshold →
        api < cfg.system_api_failure_threshold →
        panic > cfg.system_panic_sell_threshold →
        (Breaker.check_system (.ok ()) cfg st vol api panic ps now).2 =
          .ok (false, some (ps.take (ps.length / 2)))) := by
  intro cfg st vol api panic ps now
  refine ⟨?_, ?_, ?_⟩
  · intro h
    constructor
    · simp only [Breaker.check_system, if_pos h]
    · simp only [Breaker.check_system, if_pos h]
      rfl
  · intro h1 h2
    simp only [Breaker.check_system, if_neg h1, if_pos h2]
  · intro h1 h2 h3
    simp only [Breaker.check_system, if_neg h1, if_neg (Nat.not_le.mpr h2), if_pos h3]

/-- C6 witness: the three trigger branches evaluated on two open positions,
plus the NameError propagation on the volatility branch. -/
theorem C6_witness :
    ((1:ℚ)/4 > (Breaker.CircuitBreakerConfig.system_volatility_threshold {})) ∧
    (Breaker.check_system (.ok ()) {} {} (1/4) 0 0 ["p1", "p2"] 0).2 =
      .ok (false, some ["p1", "p2"]) ∧
    (Breaker.check_system Breaker.chmodCall {} {} (1/4) 0 0 ["p1", "p2"] 0).2 =
      .error { missing := "os" } ∧
    (Breaker.check_system (.ok ()) {} {} 0 5 0 ["p1", "p2"] 0).2 = .ok (false, none) ∧
    (Breaker.check_system (.ok ()) {} {} 0 0 (4/25) ["p1", "p2"] 0).2 =
      .ok (false, some ["p1"]) := by
  have h1 := (C6_close_lists {} {} (1/4) 0 0 ["p1", "p2"] 0).1 (by norm_num)
  have h2 := (C6_close_lists {} {} 0 5 0 ["p1", "p2"] 0).2.1 (by norm_num) (by norm_num)
  have h3 := (C6_close_lists {} {} 0 0 (4/25) ["p1", "p2"] 0).2.2 (by norm_num) (by norm_num)
    (by norm_num)
  exact ⟨by norm_num, h1.1, h1.2, h2, by simpa using h3⟩

/-- C6 counterexample: a panic-sell trigger with two open positions emits only
`["p1"]` — half of the positions, not all of them as the claim states. -/
theorem C6_counterexample :
    (Breaker.check_system (.ok ()) {} {} 0 0 (4/25) ["p1", "p2"] 0).2 =
      .ok (false, some ["p1"]) ∧
    (["p1"] : List String) ≠ ["p1", "p2"] := by
  constructor
  · simp only [Breaker.check_system]
    rw [if_neg (by norm_num), if_neg (by norm_num), if_pos (by norm_num)]
    simp
  · decide

/-- C3 (code bug): every `_save_state` call raises `NameError` because
`os.chmod` is reached with no `import os`; the persisted JSON renders the
`CircuitBreakerState` dataclasses through `default=str`, so reloading yields
strings rather than the saved states (the round trip is not the identity even
on the initial state); and the WARNING transition of `check_account` performs
no save at all. -/
theorem C3_persistence_broken :
    (∀ s : Breaker.PyVal, (Breaker.save_state s).2 = .error { missing := "os" }) ∧
    Breaker.statesAfterRestart Breaker.initialStates ≠ Breaker.initialStates ∧
    (Breaker.check_account {} {} (-500) 10000 0 0).2.1 = 0 ∧
    (Breaker.check_account {} {} (-500) 10000 0 0).1.state = .warning := by
  refine ⟨?_, ?_, ?_, ?_⟩
  · intro s; rfl
  · simp [Breaker.statesAfterRestart, Breaker.save_state, Breaker.initialStates,
      Breaker.dumpsLoadsDefaultStr, Breaker.dumpsLoadsList]
  · simp only [Breaker.check_account]
    rw [if_pos (And.intro (by norm_num) (by decide)), if_neg (by norm_num),
      if_neg (by norm_num)]
  · simp only [Breaker.check_account]
    rw [if_pos (And.intro (by norm_num) (by decide)), if_neg (by norm_num),
      if_neg (by norm_num)]

/-- C7 counterexample: an account whose `daily_loss_pct` exactly equals
`max_daily_loss_pct` (5%) is *rejected* with `RISK_CHECK_FAILED`, refuting
"exactly equal ... admitted". -/
theorem C7_counterexample :
    ({} : Gateway.RiskConfig).max_daily_loss_pct = 1/20 ∧
    (Gateway.validate {}
      { symbol := "BTC/USDT", side := .buy, size := 1/100, price := some 100, leverage := 1 }
      { total_equity := 10000, available_balance := 10000, daily_loss_pct := 1/20 }
      none 12).allowed = false ∧
    (Gateway.validate {}
      { symbol := "BTC/USDT", side := .buy, size := 1/100, price := some 100, leverage := 1 }
      { total_equity := 10000, available_balance := 10000, daily_loss_pct := 1/20 }
      none 12).reason = some .risk_check_failed := by
  refine ⟨by norm_num, ?_, ?_⟩ <;>
  · simp only [Gateway.validate, Gateway.priceOr0, Gateway.priceOr1]
    rw [if_neg (by norm_num), if_neg (by norm_num)]
    rw [if_pos (by norm_num)]

/-- C7 (amended): the gateway daily-loss rule rejects with
`RISK_CHECK_FAILED` whenever `daily_loss_pct >= max_daily_loss_pct` — at the
boundary included — and admits strictly below it; the services-engine
`_check_daily_limits` likewise raises at or above the limit. -/
theorem C7_daily_loss_boundary :
    (∀ (cfg : Gateway.RiskConfig) (order : Gateway.OrderRequest)
        (account : Gateway.AccountState) (hour : Nat),
      0 < account.available_balance →
      order.leverage ≤ cfg.max_leverage →
      account.daily_loss_pct ≥ cfg.max_daily_loss_pct →
      (Gateway.validate cfg order account none hour).allowed = false ∧
        (Gateway.validate cfg order account none hour).reason =
          some .risk_check_failed) ∧
    (∀ (cfg : Gateway.RiskConfig) (order : Gateway.OrderRequest)
        (account : Gateway.AccountState) (hour : Nat),
      0 < account.available_balance →
      order.leverage ≤ cfg.max_leverage →
      account.daily_loss_pct < cfg.max_daily_loss_pct →
      (Gateway.validate cfg order account none hour).allowed = true) ∧
    (∀ (limits : RiskSvc.RiskLimits) (account : RiskSvc.AccountInfo),
      account.daily_pnl < 0 →
      pyAbs account.daily_pnl / account.balance ≥ limits.max_daily_loss_pct →
      RiskSvc.check_daily_limits limits account =
        .error (.dailyLossLimit "max_daily_loss_pct")) := by
  refine ⟨?_, ?_, ?_⟩
  · intro cfg order account hour h1 h2 h3
    constructor <;>
    · simp only [Gateway.validate, Gateway.priceOr0, Gateway.priceOr1]
      rw [if_neg (not_le.mpr h1), if_neg (not_lt.mpr h2), if_pos h3]
  · intro cfg order account hour h1 h2 h3
    simp only [Gateway.validate, Gateway.priceOr0, Gateway.priceOr1]
    rw [if_neg (not_le.mpr h1), if_neg (not_lt.mpr h2), if_neg (not_le.mpr h3)]
    rfl
  · intro limits account h1 h2
    simp only [RiskSvc.check_daily_limits]
    rw [if_pos ⟨h1, h2⟩]

/-- C7 witness: the boundary theorem applied exactly at the limit (rejected),
strictly below it (admitted), and at the boundary of the services engine. -/
theorem C7_witness :
    ((1:ℚ)/20 ≥ ({} : Gateway.RiskConfig).max_daily_loss_pct) ∧
    (Gateway.validate {}
      { symbol := "BTC/USDT", side := .buy, size := 1/100, price := some 100 }
      { total_equity := 10000, available_balance := 10000, daily_loss_pct := 1/20 }
      none 12).allowed = false ∧
    (Gateway.validate {}
      { symbol := "BTC/USDT", side := .buy, size := 1/100, price := some 100 }
      { total_equity := 10000, available_balance := 10000, daily_loss_pct := 1/40 }
      none 12).allowed = true ∧
    RiskSvc.check_daily_limits {} { balance := 10000, daily_pnl := -500 } =
      .error (.dailyLossLimit "max_daily_loss_pct") :=
  ⟨by norm_num,
   (C7_daily_loss_boundary.1 {} _ _ 12 (by norm_num) (by norm_num) (by norm_num)).1,
   C7_daily_loss_boundary.2.1 {} _ _ 12 (by norm_num) (by norm_num) (by norm_num),
   C7_daily_loss_boundary.2.2 {} _ (by norm_num) (by norm_num [pyAbs])⟩

/-- C2 (amended): whenever the order notional exceeds
`max_position_pct × equity`, the gateway admits the order with its size
clamped to `equity × max_position_pct / price` (notional = limit) and marks
`size_adjusted`; the `position_limit` applied-rule record exists only in the
services risk engine, which compares the *fractional* size of the decision against
`max_position_pct` directly and reduces 0.25 to 0.10, not to 0.02. -/
theorem C2_position_clamp :
    (∀ (cfg : Gateway.RiskConfig) (order : Gateway.OrderRequest)
        (account : Gateway.AccountState) (hour : Nat) (p : ℚ),
      0 < account.available_balance →
      order.leverage ≤ cfg.max_leverage →
      account.daily_loss_pct < cfg.max_daily_loss_pct →
      order.price = some p → p ≠ 0 →
      order.size * p > account.total_equity * cfg.max_position_pct →
      (Gateway.validate cfg order account none hour).allowed = true ∧
        (Gateway.validate cfg order account none hour).adjustSize =
          some (account.total_equity * cfg.max_position_pct / p) ∧
        (Gateway.validate cfg order account none hour).sizeAdjusted = true ∧
        account.total_equity * cfg.max_position_pct / p * p =
          account.total_equity * cfg.max_position_pct) ∧
    RiskSvc.check_position {} { size := some (1/4), symbol := "BTC/USDT" } {} =
      .ok ({ size := some (1/10), symbol := "BTC/USDT" },
        some { rule := "position_limit", action := "reduced",
               original := 1/4, reduced_to := 1/10 }) := by
  constructor
  · intro cfg order account hour p h1 h2 h3 hp hp0 h4
    simp only [Gateway.validate, hp, Gateway.priceOr0, Gateway.priceOr1, Option.getD_some]
    rw [if_pos hp0]
    rw [if_neg (not_le.mpr h1), if_neg (not_lt.mpr h2)]
    simp only [if_pos h4]
    rw [if_neg (not_le.mpr h3)]
    refine ⟨rfl, rfl, by simp [h4], ?_⟩
    field_simp
  · simp only [RiskSvc.check_position]
    rw [if_neg (by norm_num), if_pos (by norm_num)]

/-- C2 witness: the clamp theorem at the S1 numbers — equity 10000,
`max_position_pct` 0.10, price 50000, size 0.25 — is admitted with size
1/50 = 0.02. -/
theorem C2_witness :
    ((1:ℚ)/4 * 50000 > 10000 * ({} : Gateway.RiskConfig).max_position_pct) ∧
    (Gateway.validate {}
      { symbol := "BTC/USDT", side := .buy, size := 1/4, price := some 50000 }
      { total_equity := 10000, available_balance := 10000 }
      none 12).allowed = true ∧
    (Gateway.validate {}
      { symbol := "BTC/USDT", side := .buy, size := 1/4, price := some 50000 }
      { total_equity := 10000, available_balance := 10000 }
      none 12).adjustSize = some (1/50) ∧
    (Gateway.validate {}
      { symbol := "BTC/USDT", side := .buy, size := 1/4, price := some 50000 }
      { total_equity := 10000, available_balance := 10000 }
      none 12).sizeAdjusted = true := by
  have h := C2_position_clamp.1 {}
    { symbol := "BTC/USDT", side := .buy, size := 1/4, price := some 50000 }
    { total_equity := 10000, available_balance := 10000 }
    12 50000 (by norm_num) (by norm_num) (by norm_num) rfl (by norm_num) (by norm_num)
  refine ⟨by norm_num, h.1, ?_, h.2.2.1⟩
  rw [h.2.1]
  norm_num

/-- C2 counterexample: the only component that records a `position_limit`
applied rule, `RiskEngine._check_position`, records original 0.25 reduced to
0.10 (= `max_position_pct`), not 0.02 as the claim states. -/
theorem C2_counterexample :
    RiskSvc.check_position {} { size := some (1/4), symbol := "BTC/USDT" } {} =
      .ok ({ size := some (1/10), symbol := "BTC/USDT" },
        some { rule := "position_limit", action := "reduced",
               original := 1/4, reduced_to := 1/10 }) ∧
    ((1:ℚ)/10 ≠ 1/50) := by
  constructor
  · simp only [RiskSvc.check_position]
    rw [if_neg (by norm_num), if_pos (by norm_num)]
  · norm_num

namespace DataSvc

theorem diffs_length : ∀ xs : List ℚ, (diffs xs).length = xs.length - 1 := by
  intro xs
  induction xs with
  | nil => rfl
  | cons a rest ih =>
      cases rest with
      | nil => rfl
      | cons b rest2 =>
          simp only [diffs, List.length_cons] at ih ⊢
          omega

theorem trueRanges_length : ∀ bars : List Bar, (trueRanges bars).length = bars.length - 1 := by
  intro bars
  induction bars with
  | nil => rfl
  | cons a rest ih =>
      cases rest with
      | nil => rfl
      | cons b rest2 =>
          simp only [trueRanges, List.length_cons] at ih ⊢
          omega

theorem take_len_eq {α : Type} (l : List α) (n : Nat) (h : l.length = n) :
    l.take n = l := by
  rw [← h, List.take_length]

theorem drop_len_eq {α : Type} (l : List α) (n : Nat) (h : l.length = n) :
    l.drop n = [] := by
  rw [← h, List.drop_length]

theorem lastN_len_eq (l : List ℚ) (n : Nat) (h : l.length = n) : lastN n l = l := by
  simp [lastN, h]

end DataSvc

/-- C8 (amended): the EMA recurrence seeds with `price[0]` and multiplier
`2/(N+1)` exactly as specified (for series at least `period` long); the RSI
and ATR, however, are *simple* means over the last 14 gains/losses and true
ranges, which coincide with Wilder smoothing only for series of length
exactly 15. -/
theorem C8_indicator_semantics :
    (∀ (data : List ℚ) (period : Nat), 1 ≤ period → period ≤ data.length →
      DataSvc.ema data period = DataSvc.emaSpec data period) ∧
    (∀ data : List ℚ, data.length = 15 →
      DataSvc.rsi data 14 = DataSvc.rsiWilder data 14) ∧
    (∀ bars : List DataSvc.Bar, bars.length = 15 →
      DataSvc.atr bars 14 = DataSvc.atrWilder bars 14) := by
  refine ⟨?_, ?_, ?_⟩
  · intro data period h1 h2
    simp only [DataSvc.ema, DataSvc.emaSpec, if_neg (not_lt.mpr h2)]
  · intro data h
    have hguard : ¬ (data.length < 14 + 1) := by omega
    have hlen : (DataSvc.diffs data).length = 14 := by
      rw [DataSvc.diffs_length, h]
    have hg : (List.map (fun c => if c > 0 then c else (0:ℚ)) (DataSvc.diffs data)).length = 14 := by
      simp [hlen]
    have hl : (List.map (fun c => if c > 0 then (0:ℚ) else pyAbs c) (DataSvc.diffs data)).length = 14 := by
      simp [hlen]
    simp only [DataSvc.rsi, DataSvc.rsiWilder, if_neg hguard]
    rw [DataSvc.lastN_len_eq _ _ hg, DataSvc.lastN_len_eq _ _ hl,
        DataSvc.take_len_eq _ _ hg, DataSvc.take_len_eq _ _ hl,
        DataSvc.drop_len_eq _ _ hg, DataSvc.drop_len_eq _ _ hl]
    simp [DataSvc.wilderSmooth]
  · intro bars h
    have hguard : ¬ (bars.length < 14 + 1) := by omega
    have hlen : (DataSvc.trueRanges bars).length = 14 := by
      rw [DataSvc.trueRanges_length, h]
    have hne : (DataSvc.trueRanges bars).isEmpty = false := by
      cases htr : DataSvc.trueRanges bars with
      | nil => rw [htr] at hlen; cases hlen
      | cons x l => rfl
    simp only [DataSvc.atr, DataSvc.atrWilder, if_neg hguard, hne]
    rw [DataSvc.lastN_len_eq _ _ hlen, DataSvc.take_len_eq _ _ hlen,
        DataSvc.drop_len_eq _ _ hlen]
    simp [DataSvc.wilderSmooth]

/-- C8 witness: the amended theorem applied at a 2-element EMA series and at
15-element RSI/ATR series, where the code agrees with Wilder. -/
theorem C8_witness :
    (1 ≤ 2 ∧ 2 ≤ ([3, 5] : List ℚ).length ∧
      DataSvc.ema [3, 5] 2 = DataSvc.emaSpec [3, 5] 2) ∧
    (([100, 114, 100, 100, 100, 100, 100, 100, 100, 100, 100, 100, 100, 100, 100] :
        List ℚ).length = 15 ∧
      DataSvc.rsi [100, 114, 100, 100, 100, 100, 100, 100, 100, 100, 100, 100, 100, 100, 100] 14 =
        DataSvc.rsiWilder [100, 114, 100, 100, 100, 100, 100, 100, 100, 100, 100, 100, 100, 100, 100] 14) ∧
    ((({ high := 100, low := 100, close := 100 } :: List.replicate 14
          ({ high := 114, low := 114, close := 114 } : DataSvc.Bar)).length = 15) ∧
      DataSvc.atr ({ high := 100, low := 100, close := 100 } :: List.replicate 14
          { high := 114, low := 114, close := 114 }) 14 =
        DataSvc.atrWilder ({ high := 100, low := 100, close := 100 } :: List.replicate 14
          { high := 114, low := 114, close := 114 }) 14) :=
  ⟨⟨by norm_num, by norm_num, C8_indicator_semantics.1 [3, 5] 2 (by norm_num) (by norm_num)⟩,
   ⟨by norm_num, C8_indicator_semantics.2.1 _ (by norm_num)⟩,
   ⟨by simp, C8_indicator_semantics.2.2 _ (by simp)⟩⟩

/-- C8 counterexample: on a 16-element series (one +14 change, one -14 change,
the rest flat) the RSI from the code is 0 while Wilder-smoothed RSI is 50, and on the
matching 16-bar OHLCV series the ATR from the code is 0 while Wilder ATR is 13/14 —
refuting the Wilder-smoothing conjuncts for length ≥ 15. -/
theorem C8_counterexample :
    (([100, 114, 100, 100, 100, 100, 100, 100, 100, 100, 100, 100, 100, 100, 100, 100] :
        List ℚ).length = 16) ∧
    DataSvc.rsi [100, 114, 100, 100, 100, 100, 100, 100, 100, 100, 100, 100, 100, 100, 100, 100] 14 = 0 ∧
    DataSvc.rsiWilder [100, 114, 100, 100, 100, 100, 100, 100, 100, 100, 100, 100, 100, 100, 100, 100] 14 = 50 ∧
    DataSvc.atr ({ high := 100, low := 100, close := 100 } :: List.replicate 15
        ({ high := 114, low := 114, close := 114 } : DataSvc.Bar)) 14 = 0 ∧
    DataSvc.atrWilder ({ high := 100, low := 100, close := 100 } :: List.replicate 15
        ({ high := 114, low := 114, close := 114 } : DataSvc.Bar)) 14 = 13/14 := by
  refine ⟨by norm_num, ?_, ?_, ?_, ?_⟩
  · norm_num [DataSvc.rsi, DataSvc.diffs, DataSvc.lastN, pyAbs]
  · norm_num [DataSvc.rsiWilder, DataSvc.diffs, DataSvc.wilderSmooth, pyAbs]
  · norm_num [DataSvc.atr, DataSvc.trueRanges, DataSvc.lastN, pyAbs, pyMax,
      List.replicate]
  · norm_num [DataSvc.atrWilder, DataSvc.trueRanges, DataSvc.wilderSmooth, pyAbs, pyMax,
      List.replicate]
